import Mathlib

/-!
Verification of `tool/function.go` from the adk-go repository: a shallow
embedding of the `functionTool` adapter (construction, declaration,
request registration, invocation) together with proofs of the specified
properties.

External collaborators (the `jsonschema` library, the `genai` declaration
types) are embedded as explicit data; repository packages that are not part
of the verified source tree (`internal/typeutil`, `llm`) are modelled from
the design document and marked as such in their doc comments.
-/

/-- Untyped JSON-like values: the dynamic (`any`) values exchanged with the
model. `obj` models Go's `map[string]any` as an association list. -/
inductive JSON where
  | null
  | bool (b : Bool)
  | int (n : Int)
  | str (s : String)
  | arr (elems : List JSON)
  | obj (fields : List (String × JSON))

/-- An untyped string-keyed argument/result bag (`map[string]any`). -/
abbrev Bag := List (String × JSON)

/-- First value bound to a key in a bag, if any. -/
def bagGet (m : Bag) (k : String) : Option JSON :=
  match m with
  | [] => none
  | (k2, v) :: rest => if k2 = k then some v else bagGet rest k

/-- A raw JSON-Schema document (consumed as an opaque JSON value, matching
the black-box treatment of the schema library). -/
abbrev RawSchema := JSON

/-- Static shape of a Go type, as seen by the schema library's structural
inference (`jsonschema.For[T]`). -/
inductive TypeShape where
  | int
  | str
  | bool
  | record (fields : List (String × TypeShape))
  | unsupported (msg : String)

/-- `jsonschema.Resolved`: a validated, ready-to-use schema. It can
validate an instance and render itself back to the raw document
(`Resolved.Schema()` in Go is `schemaDoc` here). -/
structure Resolved where
  validate : JSON → Bool
  schemaDoc : RawSchema

/-- The schema library surface used by `function.go`:
`rawSchema.Resolve(nil)` and `jsonschema.For[T](nil)`. Kept abstract as a
bundle of operations since the library is an external collaborator. -/
structure SchemaLib where
  Resolve : RawSchema → Except String Resolved
  For : TypeShape → Except String RawSchema

/-- The reflective knowledge Go carries about a type parameter `T`: how a
string-keyed bag maps structurally onto `T`, how a `T` unmaps back to a
bag, and the static shape used for schema inference. -/
structure GoType (T : Type) where
  decode : Bag → Except String T
  encode : T → Bag
  shape : TypeShape

/-- The invocation context passed through to the handler
(`tool.Context`); opaque to the invocation bridge. -/
structure Ctx where
  id : Nat

/-- `FunctionToolConfig`: the input to `NewFunctionTool`. -/
structure FunctionToolConfig where
  Name : String
  Description : String
  InputSchema : Option RawSchema
  OutputSchema : Option RawSchema

/-- `genai.FunctionDeclaration`: the provider-facing declaration document. -/
structure FunctionDeclaration where
  Name : String
  Description : String
  ParametersJsonSchema : Option RawSchema
  ResponseJsonSchema : Option RawSchema

/-- `genai.Tool`: one declaration-set entry in the outgoing request. -/
structure GenaiTool where
  FunctionDeclarations : List FunctionDeclaration

/-- `genai.GenerateContentConfig` (the part `function.go` touches). -/
structure GenerateContentConfig where
  Tools : List GenaiTool

/-- `functionTool[TArgs, TResults]`: the tool adapter. The `tyArgs` and
`tyResults` fields embed the reflective information of the generic
instantiation that Go's runtime carries implicitly; `inputSchema` and
`outputSchema` are the nilable `*jsonschema.Resolved` fields. -/
structure functionTool (TArgs TResults : Type) where
  cfg : FunctionToolConfig
  inputSchema : Option Resolved
  outputSchema : Option Resolved
  tyArgs : GoType TArgs
  tyResults : GoType TResults
  handler : Ctx → TArgs → TResults

/-- A type-erased tool reference, as stored in the request's
`map[string]any` tool registry. -/
structure AnyFunctionTool : Type 1 where
  TArgs : Type
  TResults : Type
  tool : functionTool TArgs TResults

/-- Modelled from the spec: `llm.Request` (package `llm`, not present in
the source tree). Per the spec (section 3) it accumulates a name-keyed tool
registry (`Tools map[string]any`, a nilable Go map, hence the `Option`)
and, inside the generation config, the outgoing declaration list
(`GenerateConfig *genai.GenerateContentConfig`, a nilable pointer). -/
structure Request : Type 1 where
  Tools : Option (List (String × AnyFunctionTool))
  GenerateConfig : Option GenerateContentConfig

/-- Lookup in the request's tool registry (`req.Tools[name]`). -/
def lookupTool (m : List (String × AnyFunctionTool)) (k : String) : Option AnyFunctionTool :=
  match m with
  | [] => none
  | (k2, v) :: rest => if k2 = k then some v else lookupTool rest k

/-- Go map assignment `m[k] = v`: replaces the binding when the key is
present, appends it otherwise. -/
def mapSet (m : List (String × AnyFunctionTool)) (k : String) (v : AnyFunctionTool) :
    List (String × AnyFunctionTool) :=
  match m with
  | [] => [(k, v)]
  | (k2, w) :: rest => if k2 = k then (k2, v) :: rest else (k2, w) :: mapSet rest k v

/-- Rendering of `fmt.Errorf`'s `%q` verb: the string in double quotes. -/
def goQuote (s : String) : String := "\"" ++ s ++ "\""

/-- Rendering of `fmt.Errorf`'s `%T` verb on the dynamic argument value:
the name of its Go dynamic type. -/
def goTypeName (v : JSON) : String :=
  match v with
  | .null => "<nil>"
  | .bool _ => "bool"
  | .int _ => "int"
  | .str _ => "string"
  | .arr _ => "[]any"
  | .obj _ => "map[string]any"

/-- `Name` method of `functionTool`. -/
def functionTool.Name (f : functionTool TA TR) : String := f.cfg.Name

/-- `Description` method of `functionTool`. -/
def functionTool.Description (f : functionTool TA TR) : String := f.cfg.Description

/-- `Declaration` method of `functionTool`: builds the declaration with
name and description, then fills each schema field from the corresponding
resolved schema when it is non-nil (`Resolved.Schema()` renders the raw
document). The Go method always returns a non-nil pointer, embedded here
as `some`. -/
def functionTool.Declaration (f : functionTool TA TR) : Option FunctionDeclaration :=
  some { Name := f.Name
         Description := f.Description
         ParametersJsonSchema := f.inputSchema.map Resolved.schemaDoc
         ResponseJsonSchema := f.outputSchema.map Resolved.schemaDoc }

/-- `ProcessRequest` method of `functionTool`. Faithful to the source
order: initialize a nil tool map, check for a duplicate name (returning
the `fmt.Errorf` message as `some`), insert the tool, initialize a nil
generation config, and append a single-declaration `genai.Tool` entry when
`Declaration()` is non-nil. The result pairs the returned `error` value
with the request's final state (the Go method mutates `req` in place). -/
def functionTool.ProcessRequest (f : functionTool TA TR) (req : Request) :
    Option String × Request :=
  let tools0 := req.Tools.getD []
  let req1 : Request := { req with Tools := some tools0 }
  let name := f.Name
  if (lookupTool tools0 name).isSome then
    (some ("duplicate tool: " ++ goQuote name), req1)
  else
    let req2 : Request := { req1 with Tools := some (mapSet tools0 name ⟨TA, TR, f⟩) }
    let gc := req2.GenerateConfig.getD { Tools := [] }
    match f.Declaration with
    | some decl =>
      let entry : GenaiTool := { FunctionDeclarations := [decl] }
      let gc2 : GenerateContentConfig := { gc with Tools := gc.Tools ++ [entry] }
      (none, { req2 with GenerateConfig := some gc2 })
    | none => (none, { req2 with GenerateConfig := some gc })

/-- Modelled from the spec:
`typeutil.ConvertToWithJSONSchema[map[string]any, TArgs]` (package
`internal/typeutil`, not present in the source tree). Per the spec
(section 4.4) the bag-to-typed direction validates the bag against the
resolved schema, then structurally maps the validated fields onto the
typed input; either failure surfaces as a conversion error with no value.
A nil schema skips validation. -/
def convertBagTo (ty : GoType T) (schema : Option Resolved) (m : Bag) : Except String T :=
  match schema with
  | some s =>
    if s.validate (.obj m) then ty.decode m
    else .error "input does not validate against schema"
  | none => ty.decode m

/-- Modelled from the spec:
`typeutil.ConvertToWithJSONSchema[TResults, map[string]any]` (package
`internal/typeutil`, not present in the source tree). Per the spec
(section 4.4) the typed-to-bag direction structurally unmaps the typed
output into a bag and validates it against the resolved schema; failure
surfaces as a conversion error with no value. A nil schema skips
validation. -/
def convertToBag (ty : GoType T) (schema : Option Resolved) (x : T) : Except String Bag :=
  let m := ty.encode x
  match schema with
  | some s =>
    if s.validate (.obj m) then .ok m
    else .error "output does not validate against schema"
  | none => .ok m

/-- `Run` method of `functionTool`: assert the dynamic argument is a
string-keyed map, convert it to the typed input against the input schema,
invoke the handler, convert the typed output back to a bag against the
output schema. The first component pairs the returned `(any, error)`
values; the second component is the instrumentation trace of handler
invocations (which contexts and typed inputs the handler was applied to). -/
def functionTool.Run (f : functionTool TA TR) (ctx : Ctx) (args : JSON) :
    (Option Bag × Option String) × List (Ctx × TA) :=
  match args with
  | .obj m =>
    match convertBagTo f.tyArgs f.inputSchema m with
    | .error e => ((none, some e), [])
    | .ok input =>
      let output := f.handler ctx input
      match convertToBag f.tyResults f.outputSchema output with
      | .error e => ((none, some e), [(ctx, input)])
      | .ok res => ((some res, none), [(ctx, input)])
  | other => ((none, some ("unexpected args type, got: " ++ goTypeName other)), [])

/-- `resolvedSchema[T]`: resolve the override directly when present,
otherwise infer a raw schema from the static shape of `T` and resolve
that. -/
def resolvedSchema (lib : SchemaLib) (shape : TypeShape) (override : Option RawSchema) :
    Except String Resolved :=
  match override with
  | some s => lib.Resolve s
  | none =>
    match lib.For shape with
    | .error e => .error e
    | .ok schema => lib.Resolve schema

/-- `NewFunctionTool`: resolve both schemas (wrapping a failure with the
side that failed, as `fmt.Errorf("failed to infer ... schema: %w", err)`
does) and assemble the tool. -/
def NewFunctionTool (lib : SchemaLib) (tyA : GoType TA) (tyR : GoType TR)
    (cfg : FunctionToolConfig) (handler : Ctx → TA → TR) :
    Except String (functionTool TA TR) :=
  match resolvedSchema lib tyA.shape cfg.InputSchema with
  | .error e => .error ("failed to infer input schema: " ++ e)
  | .ok ischema =>
    match resolvedSchema lib tyR.shape cfg.OutputSchema with
    | .error e => .error ("failed to infer output schema: " ++ e)
    | .ok oschema =>
      .ok { cfg := cfg
            inputSchema := some ischema
            outputSchema := some oschema
            tyArgs := tyA
            tyResults := tyR
            handler := handler }

/-! ### Concrete fixtures (test instances used by witnesses) -/

/-- The unit Go type: empty record shape, trivial codec. -/
def unitType : GoType Unit :=
  { decode := fun _ => .ok ()
    encode := fun _ => []
    shape := TypeShape.record [] }

/-- A tool with both resolved schemas absent (the `*jsonschema.Resolved`
fields nil), for exercising `Declaration` and registration. -/
def noopTool : functionTool Unit Unit :=
  { cfg := FunctionToolConfig.mk "noop" "does nothing" none none
    inputSchema := none
    outputSchema := none
    tyArgs := unitType
    tyResults := unitType
    handler := fun _ x => x }

/-- Typed input of the `add` scenario from the design document. -/
structure AddArgs where
  a : Int
  b : Int

/-- Typed output of the `add` scenario from the design document. -/
structure AddResult where
  sum : Int

/-- Reflective codec for `AddArgs`. -/
def addArgsType : GoType AddArgs :=
  { decode := fun m =>
      match bagGet m "a", bagGet m "b" with
      | some (JSON.int x), some (JSON.int y) => .ok (AddArgs.mk x y)
      | _, _ => .error "args do not map onto AddArgs"
    encode := fun x => [("a", JSON.int x.a), ("b", JSON.int x.b)]
    shape := TypeShape.record [("a", TypeShape.int), ("b", TypeShape.int)] }

/-- Reflective codec for `AddResult`. -/
def addResultType : GoType AddResult :=
  { decode := fun m =>
      match bagGet m "sum" with
      | some (JSON.int s) => .ok (AddResult.mk s)
      | _ => .error "args do not map onto AddResult"
    encode := fun r => [("sum", JSON.int r.sum)]
    shape := TypeShape.record [("sum", TypeShape.int)] }

/-- Resolved input schema of the `add` scenario: an object with integer
fields `a` and `b`. -/
def addInputSchema : Resolved :=
  { validate := fun v =>
      match v with
      | JSON.obj m =>
        (match bagGet m "a" with | some (JSON.int _) => true | _ => false) &&
        (match bagGet m "b" with | some (JSON.int _) => true | _ => false)
      | _ => false
    schemaDoc := JSON.obj [("type", JSON.str "object")] }

/-- Resolved output schema of the `add` scenario: an object with an
integer field `sum`. -/
def addOutputSchema : Resolved :=
  { validate := fun v =>
      match v with
      | JSON.obj m => (match bagGet m "sum" with | some (JSON.int _) => true | _ => false)
      | _ => false
    schemaDoc := JSON.obj [("type", JSON.str "object")] }

/-- The `add` tool of the design document's concrete scenario. -/
def addTool : functionTool AddArgs AddResult :=
  { cfg := FunctionToolConfig.mk "add" "adds two ints" none none
    inputSchema := some addInputSchema
    outputSchema := some addOutputSchema
    tyArgs := addArgsType
    tyResults := addResultType
    handler := fun _ x => AddResult.mk (x.a + x.b) }

/-- An identity tool over `AddArgs` (handler returns its input). -/
def idAddTool : functionTool AddArgs AddArgs :=
  { cfg := FunctionToolConfig.mk "echo" "returns its arguments" none none
    inputSchema := some addInputSchema
    outputSchema := some addInputSchema
    tyArgs := addArgsType
    tyResults := addArgsType
    handler := fun _ y => y }

/-- A schema library that resolves every raw schema to an
accept-everything validator. -/
def libResolveAll : SchemaLib :=
  { Resolve := fun raw => .ok (Resolved.mk (fun _ => true) raw)
    For := fun _ => .ok JSON.null }

/-- A schema library whose structural inference always fails. -/
def libNoInfer : SchemaLib :=
  { Resolve := fun raw => .ok (Resolved.mk (fun _ => true) raw)
    For := fun _ => .error "unsupported type" }

/-- A schema library whose resolution always fails. -/
def libNoResolve : SchemaLib :=
  { Resolve := fun _ => .error "bad schema"
    For := fun _ => .ok JSON.null }

/-! ### Helper lemmas -/

/-- A successful typed-to-bag conversion yields exactly the structural
unmapping of the output, and that bag validates against the output schema
whenever one is present. -/
theorem convertToBag_ok (ty : GoType T) (schema : Option Resolved) (x : T) (res : Bag)
    (h : convertToBag ty schema x = .ok res) :
    res = ty.encode x ∧ ∀ s, schema = some s → s.validate (JSON.obj res) = true := by
  cases schema with
  | none =>
    simp only [convertToBag] at h
    exact ⟨(Except.ok.inj h).symm, fun s hs => by cases hs⟩
  | some s =>
    simp only [convertToBag] at h
    by_cases hv : s.validate (JSON.obj (ty.encode x)) = true
    · rw [if_pos hv] at h
      have hres : res = ty.encode x := (Except.ok.inj h).symm
      refine ⟨hres, fun s2 hs2 => ?_⟩
      cases hs2
      rw [hres]
      exact hv
    · rw [if_neg hv] at h
      cases h

/-! ### Claim theorems -/

/-- C1: registering a tool into a request that already holds a tool of the
same name returns the duplicate-tool error and leaves the request in its
prior state — the tool map is unchanged and no declaration entry is
appended. -/
theorem c1_duplicate_registration_rejected (f : functionTool TA TR) (req : Request)
    (h : (lookupTool (req.Tools.getD []) f.Name).isSome = true) :
    f.ProcessRequest req = (some ("duplicate tool: " ++ goQuote f.Name), req) := by
  cases req with
  | mk tools gc =>
    cases tools with
    | none => simp [lookupTool] at h
    | some m =>
      simp only [Option.getD] at h
      simp [functionTool.ProcessRequest, h]

/-- Witness for C1: registering `noopTool` into a request already holding
a tool named `noop` fails with the duplicate-tool error and leaves the
request unchanged. -/
theorem c1_witness :
    (lookupTool ((Request.mk (some [("noop", AnyFunctionTool.mk Unit Unit noopTool)])
        none).Tools.getD []) noopTool.Name).isSome = true ∧
    noopTool.ProcessRequest
        (Request.mk (some [("noop", AnyFunctionTool.mk Unit Unit noopTool)]) none)
      = (some ("duplicate tool: " ++ goQuote noopTool.Name),
         Request.mk (some [("noop", AnyFunctionTool.mk Unit Unit noopTool)]) none) :=
  ⟨rfl, c1_duplicate_registration_rejected noopTool
    (Request.mk (some [("noop", AnyFunctionTool.mk Unit Unit noopTool)]) none) rfl⟩

/-- C10: registering into a zero-valued request (nil tool map, nil
generation config) succeeds with no error: `ProcessRequest` initializes
both nil structures before using them, so the final state holds the tool
under its name and a generation config with the tool's declaration. -/
theorem c10_zero_request_registration (f : functionTool TA TR) (req : Request)
    (ht : req.Tools = none) (hg : req.GenerateConfig = none) :
    f.ProcessRequest req =
      (none,
       Request.mk (some [(f.Name, AnyFunctionTool.mk TA TR f)])
         (some (GenerateContentConfig.mk
           [GenaiTool.mk [FunctionDeclaration.mk f.Name f.Description
              (f.inputSchema.map Resolved.schemaDoc)
              (f.outputSchema.map Resolved.schemaDoc)]]))) := by
  cases req with
  | mk tools gc =>
    cases ht
    cases hg
    simp [functionTool.ProcessRequest, functionTool.Declaration, lookupTool, mapSet]

/-- Witness for C10: registering `noopTool` into the zero request yields
the initialized request with the tool and its declaration. -/
theorem c10_witness :
    noopTool.ProcessRequest (Request.mk none none) =
      (none,
       Request.mk (some [("noop", AnyFunctionTool.mk Unit Unit noopTool)])
         (some (GenerateContentConfig.mk
           [GenaiTool.mk [FunctionDeclaration.mk "noop" "does nothing" none none]]))) :=
  c10_zero_request_registration noopTool (Request.mk none none) rfl rfl

/-- C4 counterexample: for `noopTool`, whose input and output schemas are
both absent, `Declaration` still returns a declaration (carrying the name
and description), and registering the tool into a fresh request appends a
declaration entry anyway — the claim's "returns nothing meaningful" and
"appends only when non-empty" both fail at this input. -/
theorem c4_counterexample :
    noopTool.Declaration
      = some (FunctionDeclaration.mk "noop" "does nothing" none none) ∧
    (noopTool.ProcessRequest (Request.mk none none)).2.GenerateConfig
      = some (GenerateContentConfig.mk
          [GenaiTool.mk [FunctionDeclaration.mk "noop" "does nothing" none none]]) :=
  ⟨rfl, rfl⟩

/-- C4 amended: `Declaration` always returns a non-nil declaration
carrying the tool's name and description, with each schema field filled
exactly when the corresponding resolved schema is present; consequently a
successful registration always appends exactly one declaration entry to
the request's declaration list, even when both schemas are absent. -/
theorem c4_declaration_always_present (f : functionTool TA TR) (req : Request)
    (h : (lookupTool (req.Tools.getD []) f.Name).isSome = false) :
    f.Declaration = some (FunctionDeclaration.mk f.Name f.Description
        (f.inputSchema.map Resolved.schemaDoc) (f.outputSchema.map Resolved.schemaDoc)) ∧
    (f.ProcessRequest req).1 = none ∧
    ((f.ProcessRequest req).2.GenerateConfig.getD (GenerateContentConfig.mk [])).Tools.length
      = (req.GenerateConfig.getD (GenerateContentConfig.mk [])).Tools.length + 1 := by
  cases req with
  | mk tools gc =>
    refine ⟨rfl, ?_, ?_⟩ <;>
      simp [functionTool.ProcessRequest, functionTool.Declaration, h]

/-- Witness for the amended C4: registering `noopTool` (both schemas
absent) into a fresh request succeeds and grows the declaration list from
zero entries to one. -/
theorem c4_witness :
    noopTool.Declaration = some (FunctionDeclaration.mk noopTool.Name noopTool.Description
        (noopTool.inputSchema.map Resolved.schemaDoc)
        (noopTool.outputSchema.map Resolved.schemaDoc)) ∧
    (noopTool.ProcessRequest (Request.mk none none)).1 = none ∧
    ((noopTool.ProcessRequest (Request.mk none none)).2.GenerateConfig.getD
        (GenerateContentConfig.mk [])).Tools.length
      = ((Request.mk none none).GenerateConfig.getD (GenerateContentConfig.mk [])).Tools.length
        + 1 :=
  c4_declaration_always_present noopTool (Request.mk none none) rfl

/-- C6: invoking with an argument value that is not a string-keyed map
fails the type assertion immediately — the type error is returned, the
handler is never invoked, and the result is the same for any input/output
schemas (no conversion is attempted). -/
theorem c6_non_map_args_type_error (f : functionTool TA TR) (ctx : Ctx) (args : JSON)
    (h : ∀ m : Bag, args ≠ JSON.obj m) :
    f.Run ctx args = ((none, some ("unexpected args type, got: " ++ goTypeName args)), []) ∧
    ∀ s1 s2 : Option Resolved,
      functionTool.Run { f with inputSchema := s1, outputSchema := s2 } ctx args
        = f.Run ctx args := by
  cases args with
  | obj m => exact absurd rfl (h m)
  | null => exact ⟨rfl, fun s1 s2 => rfl⟩
  | bool b => exact ⟨rfl, fun s1 s2 => rfl⟩
  | int n => exact ⟨rfl, fun s1 s2 => rfl⟩
  | str s => exact ⟨rfl, fun s1 s2 => rfl⟩
  | arr xs => exact ⟨rfl, fun s1 s2 => rfl⟩

/-- Witness for C6: invoking `addTool` with the string `"not-a-map"`
returns the type error with no handler call. -/
theorem c6_witness :
    addTool.Run (Ctx.mk 0) (JSON.str "not-a-map")
      = ((none, some ("unexpected args type, got: "
            ++ goTypeName (JSON.str "not-a-map"))), []) :=
  (c6_non_map_args_type_error addTool (Ctx.mk 0) (JSON.str "not-a-map")
    (fun _ hm => JSON.noConfusion hm)).1

/-- C7: with an explicit raw schema the resolver hands it directly to the
library (independently of the type's shape); with no explicit schema it
infers a raw schema from the shape and resolves that; a failure of either
path propagates as an error carrying no resolved schema. -/
theorem c7_resolvedSchema_paths (lib : SchemaLib) (shape shape2 : TypeShape) (s : RawSchema) :
    resolvedSchema lib shape (some s) = lib.Resolve s ∧
    resolvedSchema lib shape2 (some s) = resolvedSchema lib shape (some s) ∧
    (∀ e, lib.Resolve s = .error e → resolvedSchema lib shape (some s) = .error e) ∧
    (∀ r, lib.For shape = .ok r → resolvedSchema lib shape none = lib.Resolve r) ∧
    (∀ e, lib.For shape = .error e → resolvedSchema lib shape none = .error e) := by
  refine ⟨rfl, rfl, ?_, ?_, ?_⟩ <;> intro v hv <;> simp [resolvedSchema, hv]

/-- Witness for C7: under a library whose inference fails, resolution with
no explicit schema fails with the inference error; with an explicit
schema it succeeds regardless of the shape. -/
theorem c7_witness :
    resolvedSchema libNoInfer (TypeShape.record []) none = .error "unsupported type" ∧
    resolvedSchema libNoInfer (TypeShape.record []) (some JSON.null)
      = .ok (Resolved.mk (fun _ => true) JSON.null) :=
  ⟨(c7_resolvedSchema_paths libNoInfer (TypeShape.record []) TypeShape.int JSON.null).2.2.2.2
      "unsupported type" rfl,
   (c7_resolvedSchema_paths libNoInfer (TypeShape.record []) TypeShape.int JSON.null).1⟩

/-- C8: `NewFunctionTool` fails with an error naming the input side when
input-schema resolution fails, fails with an error naming the output side
when output-schema resolution fails, and otherwise returns the assembled
tool with both resolved schemas and no error. -/
theorem c8_newFunctionTool_schema_errors (lib : SchemaLib) (tyA : GoType TA) (tyR : GoType TR)
    (cfg : FunctionToolConfig) (handler : Ctx → TA → TR) :
    (∀ e, resolvedSchema lib tyA.shape cfg.InputSchema = .error e →
      NewFunctionTool lib tyA tyR cfg handler
        = .error ("failed to infer input schema: " ++ e)) ∧
    (∀ i e, resolvedSchema lib tyA.shape cfg.InputSchema = .ok i →
      resolvedSchema lib tyR.shape cfg.OutputSchema = .error e →
      NewFunctionTool lib tyA tyR cfg handler
        = .error ("failed to infer output schema: " ++ e)) ∧
    (∀ i o, resolvedSchema lib tyA.shape cfg.InputSchema = .ok i →
      resolvedSchema lib tyR.shape cfg.OutputSchema = .ok o →
      NewFunctionTool lib tyA tyR cfg handler
        = .ok (functionTool.mk cfg (some i) (some o) tyA tyR handler)) := by
  refine ⟨?_, ?_, ?_⟩
  · intro e he
    simp [NewFunctionTool, he]
  · intro i e hi he
    simp [NewFunctionTool, hi, he]
  · intro i o hi ho
    simp [NewFunctionTool, hi, ho]

/-- Witness for C8: under a failing resolver construction fails naming the
input side; under a succeeding library construction returns the tool. -/
theorem c8_witness :
    NewFunctionTool libNoResolve unitType unitType
        (FunctionToolConfig.mk "noop" "does nothing" (some JSON.null) (some JSON.null))
        (fun _ x => x)
      = .error ("failed to infer input schema: " ++ "bad schema") ∧
    NewFunctionTool libResolveAll unitType unitType
        (FunctionToolConfig.mk "noop" "does nothing" none none) (fun _ x => x)
      = .ok (functionTool.mk
          (FunctionToolConfig.mk "noop" "does nothing" none none)
          (some (Resolved.mk (fun _ => true) JSON.null))
          (some (Resolved.mk (fun _ => true) JSON.null))
          unitType unitType (fun _ x => x)) :=
  ⟨(c8_newFunctionTool_schema_errors libNoResolve unitType unitType
      (FunctionToolConfig.mk "noop" "does nothing" (some JSON.null) (some JSON.null))
      (fun _ x => x)).1 "bad schema" rfl,
   (c8_newFunctionTool_schema_errors libResolveAll unitType unitType
      (FunctionToolConfig.mk "noop" "does nothing" none none)
      (fun _ x => x)).2.2 (Resolved.mk (fun _ => true) JSON.null)
      (Resolved.mk (fun _ => true) JSON.null) rfl rfl⟩

/-- C2: on an argument bag that validates against the input schema and
maps onto the typed input, `Run` invokes the handler exactly once with the
converted input; when the output conversion goes through, the returned bag
is exactly the structural unmapping of the handler's output and validates
against the resolved output schema. -/
theorem c2_run_valid_args (f : functionTool TA TR) (ctx : Ctx) (m : Bag) (s : Resolved) (x : TA)
    (hs : f.inputSchema = some s) (hv : s.validate (JSON.obj m) = true)
    (hd : f.tyArgs.decode m = .ok x) :
    (f.Run ctx (JSON.obj m)).2 = [(ctx, x)] ∧
    (∀ so, f.outputSchema = some so →
      so.validate (JSON.obj (f.tyResults.encode (f.handler ctx x))) = true →
      (f.Run ctx (JSON.obj m)).1 = (some (f.tyResults.encode (f.handler ctx x)), none)) ∧
    (∀ res, ((f.Run ctx (JSON.obj m)).1).1 = some res →
      res = f.tyResults.encode (f.handler ctx x) ∧
      ∀ so, f.outputSchema = some so → so.validate (JSON.obj res) = true) := by
  have hconv : convertBagTo f.tyArgs f.inputSchema m = .ok x := by
    simp [convertBagTo, hs, hv, hd]
  refine ⟨?_, ?_, ?_⟩
  · cases hcb : convertToBag f.tyResults f.outputSchema (f.handler ctx x) <;>
      simp [functionTool.Run, hconv, hcb]
  · intro so hso hval
    have hcb : convertToBag f.tyResults f.outputSchema (f.handler ctx x)
        = .ok (f.tyResults.encode (f.handler ctx x)) := by
      simp [convertToBag, hso, hval]
    simp [functionTool.Run, hconv, hcb]
  · intro res hres
    cases hcb : convertToBag f.tyResults f.outputSchema (f.handler ctx x) with
    | error e =>
      simp [functionTool.Run, hconv, hcb] at hres
    | ok res2 =>
      simp [functionTool.Run, hconv, hcb] at hres
      cases hres
      exact convertToBag_ok f.tyResults f.outputSchema (f.handler ctx x) res hcb

/-- Witness for C2: `invoke` of the `add` tool on `a = 2, b = 3` calls the
handler once on `(2, 3)` and returns the bag `sum = 5`. -/
theorem c2_witness :
    (addTool.Run (Ctx.mk 0) (JSON.obj [("a", JSON.int 2), ("b", JSON.int 3)])).2
      = [(Ctx.mk 0, AddArgs.mk 2 3)] ∧
    (addTool.Run (Ctx.mk 0) (JSON.obj [("a", JSON.int 2), ("b", JSON.int 3)])).1
      = (some [("sum", JSON.int 5)], none) := by
  have h := c2_run_valid_args addTool (Ctx.mk 0) [("a", JSON.int 2), ("b", JSON.int 3)]
    addInputSchema (AddArgs.mk 2 3) rfl rfl rfl
  exact ⟨h.1, h.2.1 addOutputSchema rfl rfl⟩

/-- C3: when converting the argument bag to the typed input fails, `Run`
returns that conversion error and the handler is never invoked (the
invocation trace is empty). -/
theorem c3_conversion_error_no_handler (f : functionTool TA TR) (ctx : Ctx) (m : Bag)
    (e : String) (h : convertBagTo f.tyArgs f.inputSchema m = .error e) :
    f.Run ctx (JSON.obj m) = ((none, some e), []) := by
  simp [functionTool.Run, h]

/-- Witness for C3: giving the `add` tool a string where an integer is
required fails input conversion with no handler call. -/
theorem c3_witness :
    convertBagTo addTool.tyArgs addTool.inputSchema [("a", JSON.str "x"), ("b", JSON.int 3)]
      = .error "input does not validate against schema" ∧
    addTool.Run (Ctx.mk 0) (JSON.obj [("a", JSON.str "x"), ("b", JSON.int 3)])
      = ((none, some "input does not validate against schema"), []) :=
  ⟨rfl, c3_conversion_error_no_handler addTool (Ctx.mk 0)
     [("a", JSON.str "x"), ("b", JSON.int 3)] "input does not validate against schema" rfl⟩

/-- C5: whenever `Run` returns a non-empty error, it returns no result
bag. -/
theorem c5_error_implies_no_result (f : functionTool TA TR) (ctx : Ctx) (args : JSON)
    (e : String) (h : ((f.Run ctx args).1).2 = some e) :
    ((f.Run ctx args).1).1 = none := by
  cases args with
  | obj m =>
    cases hc : convertBagTo f.tyArgs f.inputSchema m with
    | error e2 => simp [functionTool.Run, hc]
    | ok input =>
      cases ho : convertToBag f.tyResults f.outputSchema (f.handler ctx input) with
      | error e2 => simp [functionTool.Run, hc, ho]
      | ok res => simp [functionTool.Run, hc, ho] at h
  | null => rfl
  | bool b => rfl
  | int n => rfl
  | str s => rfl
  | arr xs => rfl

/-- Witness for C5: the failing `add` invocation returns an error and no
result bag. -/
theorem c5_witness :
    ((addTool.Run (Ctx.mk 1) (JSON.obj [("a", JSON.str "x"), ("b", JSON.int 3)])).1).2
      = some "input does not validate against schema" ∧
    ((addTool.Run (Ctx.mk 1) (JSON.obj [("a", JSON.str "x"), ("b", JSON.int 3)])).1).1
      = none :=
  ⟨rfl, c5_error_implies_no_result addTool (Ctx.mk 1)
     (JSON.obj [("a", JSON.str "x"), ("b", JSON.int 3)])
     "input does not validate against schema" rfl⟩

/-- C9: for a tool whose handler is the identity, a valid argument bag
round-trips: the result is the codec normal form `encode (decode argsBag)`
of the input bag, and when the codec normalizes nothing the result is the
input bag itself. -/
theorem c9_identity_roundtrip (T : Type) (ty : GoType T) (f : functionTool T T)
    (ctx : Ctx) (m : Bag) (x : T) (s : Resolved)
    (hA : f.tyArgs = ty) (hR : f.tyResults = ty) (hH : f.handler = fun _ y => y)
    (hs : f.inputSchema = some s) (hv : s.validate (JSON.obj m) = true)
    (hd : ty.decode m = .ok x)
    (hvo : ∀ so, f.outputSchema = some so → so.validate (JSON.obj (ty.encode x)) = true) :
    (f.Run ctx (JSON.obj m)).1 = (some (ty.encode x), none) ∧
    (ty.encode x = m → (f.Run ctx (JSON.obj m)).1 = (some m, none)) := by
  have hconv : convertBagTo f.tyArgs f.inputSchema m = .ok x := by
    simp [convertBagTo, hs, hv, hA, hd]
  have hout : f.handler ctx x = x := by rw [hH]
  have hcb : convertToBag f.tyResults f.outputSchema (f.handler ctx x) = .ok (ty.encode x) := by
    cases ho : f.outputSchema with
    | none => simp [convertToBag, hR, hout]
    | some so => simp [convertToBag, hR, hout, hvo so ho]
  have hmain : (f.Run ctx (JSON.obj m)).1 = (some (ty.encode x), none) := by
    simp [functionTool.Run, hconv, hcb]
  exact ⟨hmain, fun he => by rw [hmain, he]⟩

/-- Witness for C9: the identity tool over `AddArgs` returns the input bag
`a = 2, b = 3` unchanged. -/
theorem c9_witness :
    (idAddTool.Run (Ctx.mk 0) (JSON.obj [("a", JSON.int 2), ("b", JSON.int 3)])).1
      = (some [("a", JSON.int 2), ("b", JSON.int 3)], none) := by
  have h := c9_identity_roundtrip AddArgs addArgsType idAddTool (Ctx.mk 0)
    [("a", JSON.int 2), ("b", JSON.int 3)] (AddArgs.mk 2 3) addInputSchema
    rfl rfl rfl rfl rfl rfl
    (fun so hso => Option.some.inj hso ▸ rfl)
  exact h.2 rfl
